import Mathlib

/-
Shallow embedding of `src/restful_soil_sensor.py`, a MicroPython script for a
Raspberry Pi Pico W that serves soil-moisture readings over a hand-built
HTTP/1.1 response.

Modelling conventions:
  * Python floats in this program only ever hold values with at most one
    decimal digit (`round(x, 1)` results and the literal `60.0`), far inside
    the range where the float arithmetic used here is exact at that
    granularity; they are modelled as exact rationals (`ℚ`).  `round(x, 1)`
    is Python's round-half-to-even on tenths, modelled exactly by `round1`.
  * The MicroPython `json.dumps` of the four-key dict (insertion order) is
    modelled character-exactly: separators are `", "` and `": "`, strings
    escape only `"` `\` `\n` `\r` `\t` and control characters (`\u00xx`),
    all other characters — including non-ASCII — pass through verbatim,
    booleans print as `true`/`false`, one-decimal floats print as `d.d`.
  * `len()` on a MicroPython string counts unicode code points, modelled by
    `String.length`; the byte length of the UTF-8 encoding is
    `String.utf8ByteSize`.
  * Stateful, fallible steps of `main_loop` (accept, pin read, dumps, send,
    prints, sleep) are driven by an explicit environment `HandlerEnv` that
    fixes the outcome of each step; the handler is then a pure function
    from the environment to an observable `HandlerResult`.
  * `wlan.status()` is modelled as a stream `ℕ → ℤ` indexed by the number of
    `status()` calls made so far; the short-circuit `or` in the loop
    condition (line 54) is reproduced call-for-call.
-/

-- Plant settings (source lines 29-30).  The plant name contains an
-- apostrophe, written here via its code point 39.
def PLANT_NAME : String := "Andrew" ++ String.singleton (Char.ofNat 39) ++ "s Yucca Plant"

-- Source line 30: `MAX_DRYNESS_PERCENTAGE = 60.0`.
def MAX_DRYNESS_PERCENTAGE : ℚ := 60

-- Source lines 35-36.
def MAX_WIFI_CONNECTION_ATTEMPTS : ℕ := 30

def LISTENING_PORT : ℕ := 80

/-- The process-wide configuration constants that the request path reads:
the plant display name and the dryness threshold. -/
structure Config where
  plant : String
  maxDryness : ℚ

def defaultConfig : Config := ⟨PLANT_NAME, MAX_DRYNESS_PERCENTAGE⟩

/-- Python `round(a / b, 1)` for integers `a`, `b > 0`, returned as integer
tenths: round-half-to-even of `a * 10 / b`.  `q`/`r` are euclidean quotient
and remainder, so `r ∈ [0, b)` and the three branches are fractional part
below, above, or exactly at one half. -/
def round1 (a b : ℤ) : ℤ :=
  let n := a * 10
  let q := n / b
  let r := n % b
  if 2 * r < b then q else if b < 2 * r then q + 1 else if q % 2 = 0 then q else q + 1

/-- Source lines 80-91 (`get_soil_data`): the raw u16 pin reading is rescaled
by `round(raw / 65535 * 100, 1)` and compared strictly against the dryness
threshold.  The hardware read and the global threshold are parameters. -/
def get_soil_data (raw : ℕ) (threshold : ℚ) : ℚ × Bool :=
  let value : ℚ := Rat.divInt (round1 ((raw : ℤ) * 100) 65535) 10
  (value, decide (value > threshold))

/-- MicroPython JSON string escaping (one character of the str): `"` and `\`
get a backslash, printable characters (code ≥ 32, including non-ASCII) pass
through verbatim, `\n` `\r` `\t` have short escapes, remaining control
characters print as `\u00xx` with lowercase hex. -/
def jsonEscapeChar (c : Char) : List Char :=
  if c = '"' ∨ c = '\\' then ['\\', c]
  else if 32 ≤ c.toNat then [c]
  else if c = '\n' then ['\\', 'n']
  else if c = '\r' then ['\\', 'r']
  else if c = '\t' then ['\\', 't']
  else ['\\', 'u', '0', '0', Nat.digitChar (c.toNat / 16), Nat.digitChar (c.toNat % 16)]

/-- A JSON string literal as MicroPython `json.dumps` prints it. -/
def jsonStringLit (s : String) : String :=
  "\"" ++ (s.data.flatMap jsonEscapeChar).asString ++ "\""

/-- Decimal representation of a one-decimal float value (the only float
values this program serialises), as MicroPython prints it: `d.d`, e.g.
`30.5`, `60.0`. -/
def floatRepr (q : ℚ) : String :=
  let t : ℤ := q.num * 10 / (q.den : ℤ)
  (if t < 0 then "-" else "") ++ toString (t.natAbs / 10) ++ "." ++ toString (t.natAbs % 10)

/-- Source lines 104-109: `json.dumps` of the four-key dict, keys in
insertion order, MicroPython separators `", "` and `": "`. -/
def json_dumps_soil (plant : String) (dryness : ℚ) (maxDryness : ℚ) (tooDry : Bool) : String :=
  "\x7b\"plant\": " ++ jsonStringLit plant ++
  ", \"dryness_percent\": " ++ floatRepr dryness ++
  ", \"max_allowable_dryness\": " ++ floatRepr maxDryness ++
  ", \"is_plant_too_dry\": " ++ (if tooDry then "true" else "false") ++ "\x7d"

/-- The serialised response body (`result` in the source) produced for one
request, as a function of the configuration and the raw sensor reading. -/
def build_result (cfg : Config) (raw : ℕ) : String :=
  json_dumps_soil cfg.plant (get_soil_data raw cfg.maxDryness).1 cfg.maxDryness
    (get_soil_data raw cfg.maxDryness).2

/-- Source lines 111-116: the literal HTTP/1.1 response text.  Note the
source computes `len(result)` on the *string* (code-point count) and the
line endings are bare line feeds. -/
def build_response (result : String) : String :=
  "HTTP/1.1 200 OK\n" ++ "Content-Length: " ++ toString result.length ++ "\n" ++
  "Content-Type: application/json\n\n" ++ result ++ "\n"

/-- The numeric value the source emits after `Content-Length: ` — it is
`len(result)`, the code-point count of the body string (source line 113). -/
def content_length_sent (cfg : Config) (raw : ℕ) : ℕ :=
  (build_result cfg raw).length

/-- Modelled from the spec: a wire image in which each listed line is
terminated by one bare line feed, used to state the framing claim. -/
def linesLF (ls : List String) : String :=
  ls.foldr (fun l acc => l ++ "\n" ++ acc) ""

/-- The lines the response is required to consist of: status line,
Content-Length header, Content-Type header, blank line, body. -/
def http_lines (result : String) : List String :=
  ["HTTP/1.1 200 OK", "Content-Length: " ++ toString result.length,
   "Content-Type: application/json", "", result]

/-- Outcome of `connect_to_wifi` (source lines 43-69): the returned IP or the
raised `RuntimeError`, the number of completed wait-loop iterations (each
with its one-second sleep), and the call index of the `wlan.status()` call
performed by the post-loop check on line 61. -/
structure WifiOutcome where
  result : Except String String
  pollAttempts : ℕ
  finalStatusIndex : ℕ

/-- Source lines 52-59: `while max_wait > 0: if wlan.status() < 0 or
wlan.status() >= 3: break; max_wait -= 1; sleep(1)`.  `k` counts
`wlan.status()` calls made so far; the short-circuit `or` makes the second
call only when the first returned a non-negative value.  Returns the next
status-call index and the number of completed iterations. -/
def wifiWait (status : ℕ → ℤ) : ℕ → ℕ → ℕ → ℕ × ℕ
  | 0, k, iters => (k, iters)
  | w + 1, k, iters =>
    if status k < 0 then (k + 1, iters)
    else if 3 ≤ status (k + 1) then (k + 2, iters)
    else wifiWait status w (k + 2) (iters + 1)

/-- Source lines 43-69 (`connect_to_wifi`): run the bounded wait loop, then
line 61 checks a fresh `wlan.status()`; unless it equals 3 the function
raises `RuntimeError("Network connection failed!")`, otherwise it returns
the address from `wlan.ifconfig()` (modelled by `assignedIp`). -/
def connect_to_wifi (status : ℕ → ℤ) (assignedIp : String) (maxAttempts : ℕ) : WifiOutcome :=
  let p := wifiWait status maxAttempts 0 0
  if status p.1 ≠ 3 then ⟨Except.error "Network connection failed!", p.2, p.1⟩
  else ⟨Except.ok assignedIp, p.2, p.1⟩

/-- Environment driving one `main_loop` invocation: the outcome of each
stateful step, in program order.  `accept` yields the remote address or
raises; `request` is whatever bytes the client sent (they sit in the OS
buffer — the source never reads them).  Each `Option String` is `some err`
when that step raises `err`, `none` when it succeeds. -/
structure HandlerEnv where
  accept : Except String String
  request : String
  logReceived : Option String
  rawReading : Except String ℕ
  dumps : Option String
  send : Option String
  logSent : Option String
  pause : Option String

/-- Observable outcome of one `main_loop` invocation: `raised` is the
exception escaping the handler (if any), `sent` the response string whose
send completed, `clientClosed` whether the accepted connection was closed,
`errorLogged` the `Connection closed: ...` log line (if printed). -/
structure HandlerResult where
  raised : Option String
  sent : Option String
  clientClosed : Bool
  errorLogged : Option String

/-- Source lines 124-126, reached with `client` bound: `client.close()` then
`print(f"Connection closed: \x7berr\x7d")`, and the handler returns. -/
def closeAndLog (sentSoFar : Option String) (e : String) : HandlerResult :=
  ⟨none, sentSoFar, true, some ("Connection closed: " ++ e)⟩

/-- Source lines 94-126 (`main_loop`).  Everything is wrapped in
`try/except Exception`.  If `accept` itself raises, the except block's
`client.close()` (line 125) runs with the local `client` unbound and raises
`UnboundLocalError`, which the handler does not catch — modelled by the
`raised` field; nothing is logged and no client connection exists to close.
After a successful accept, any later failure reaches the except block,
which closes the client, prints the error and returns normally. -/
def main_loop (cfg : Config) (env : HandlerEnv) : HandlerResult :=
  match env.accept with
  | Except.error _ => ⟨some "UnboundLocalError", none, false, none⟩
  | Except.ok _ =>
    match env.logReceived with
    | some e => closeAndLog none e
    | none =>
      match env.rawReading with
      | Except.error e => closeAndLog none e
      | Except.ok raw =>
        match env.dumps with
        | some e => closeAndLog none e
        | none =>
          match env.send with
          | some e => closeAndLog none e
          | none =>
            match env.logSent with
            | some e => closeAndLog (some (build_response (build_result cfg raw))) e
            | none =>
              match env.pause with
              | some e => closeAndLog (some (build_response (build_result cfg raw))) e
              | none => ⟨none, some (build_response (build_result cfg raw)), true, none⟩

/-- Replace only the request bytes of an environment. -/
def setRequest (env : HandlerEnv) (r : String) : HandlerEnv :=
  ⟨env.accept, r, env.logReceived, env.rawReading, env.dumps, env.send, env.logSent, env.pause⟩

/-- An environment whose `accept` raises (e.g. `OSError: ECONNABORTED`);
every later step would succeed. -/
def envAcceptRaises : HandlerEnv :=
  ⟨Except.error "ECONNABORTED", "GET / HTTP/1.1", none, Except.ok 20000, none, none, none, none⟩

/-- An environment where `accept` succeeds and `client.send` raises. -/
def envSendRaises : HandlerEnv :=
  ⟨Except.ok "10.0.0.5", "GET / HTTP/1.1", none, Except.ok 20000, none,
   some "ECONNRESET", none, none⟩

/-- The configuration of the end-to-end test scenarios. -/
def testConfig : Config := ⟨"Test Plant", 60⟩

/-- A configuration with a non-ASCII plant name. -/
def cafeConfig : Config := ⟨"Café", 60⟩

/-- Unfolding of `connect_to_wifi` without the `let`. -/
lemma connect_to_wifi_def (status : ℕ → ℤ) (ip : String) (n : ℕ) :
    connect_to_wifi status ip n =
      if status (wifiWait status n 0 0).1 ≠ 3
      then ⟨Except.error "Network connection failed!",
            (wifiWait status n 0 0).2, (wifiWait status n 0 0).1⟩
      else ⟨Except.ok ip, (wifiWait status n 0 0).2, (wifiWait status n 0 0).1⟩ := rfl

/-- While the status stream stays in the connecting class, the wait loop
runs its full budget: two status calls and one completed iteration per
round. -/
lemma wifiWait_connecting (status : ℕ → ℤ) (h : ∀ k, 0 ≤ status k ∧ status k < 3) :
    ∀ (w k iters : ℕ), wifiWait status w k iters = (k + 2 * w, iters + w) := by
  intro w
  induction w with
  | zero => intro k iters; simp [wifiWait]
  | succ n ih =>
    intro k iters
    show (if status k < 0 then (k + 1, iters)
          else if 3 ≤ status (k + 1) then (k + 2, iters)
          else wifiWait status n (k + 2) (iters + 1)) = (k + 2 * (n + 1), iters + (n + 1))
    rw [if_neg (not_lt.mpr (h k).1), if_neg (not_le.mpr (h (k + 1)).2), ih]
    simp only [Prod.mk.injEq]
    omega

/-- Lower bound for the rounded tenths value. -/
lemma round1_nonneg (a : ℤ) (ha : 0 ≤ a) : 0 ≤ round1 a 65535 := by
  unfold round1
  dsimp only
  split_ifs <;> omega

/-- Upper bound for the rounded tenths value. -/
lemma round1_le (a : ℤ) (ha : a ≤ 6553500) : round1 a 65535 ≤ 1000 := by
  unfold round1
  dsimp only
  split_ifs <;> omega

/-- Nonnegative tenths give a nonnegative rational. -/
lemma divInt10_nonneg (t : ℤ) (h : 0 ≤ t) : 0 ≤ Rat.divInt t 10 := by
  rw [Rat.divInt_eq_div]
  positivity

/-- At most 1000 tenths give a rational at most 100. -/
lemma divInt10_le_100 (t : ℤ) (h : t ≤ 1000) : Rat.divInt t 10 ≤ 100 := by
  rw [Rat.divInt_eq_div]
  have h10 : (0 : ℚ) < ((10 : ℤ) : ℚ) := by norm_num
  rw [div_le_iff₀ h10]
  have h' : (t : ℚ) ≤ 1000 := by exact_mod_cast h
  push_cast
  linarith

/-- On an all-ASCII character list the UTF-8 byte count is the character
count. -/
lemma utf8_go_ascii (l : List Char) (h : ∀ c ∈ l, c.utf8Size = 1) :
    String.utf8ByteSize.go l = l.length := by
  induction l with
  | nil => rfl
  | cons c cs ih =>
    show String.utf8ByteSize.go cs + c.utf8Size = cs.length + 1
    rw [ih (fun x hx => h x (List.mem_cons_of_mem c hx)), h c (List.mem_cons_self c cs)]

/-- On an all-ASCII string the UTF-8 byte length equals the code-point
count. -/
lemma utf8ByteSize_eq_length (s : String) (h : ∀ c ∈ s.data, c.utf8Size = 1) :
    s.utf8ByteSize = s.length := by
  obtain ⟨l⟩ := s
  exact utf8_go_ascii l h

/-- Decimal digit characters are never a carriage return. -/
lemma digitChar_ne_cr (n : ℕ) : Nat.digitChar n ≠ '\r' := by
  have hsmall : ∀ m : ℕ, m < 16 → Nat.digitChar m ≠ '\r' := by decide
  rcases Nat.lt_or_ge n 16 with h | h
  · exact hsmall n h
  · obtain ⟨m, rfl⟩ := Nat.exists_eq_add_of_le' h
    show ('*' : Char) ≠ '\r'
    decide

/-- The digit accumulator never introduces a carriage return. -/
lemma toDigitsCore_no_cr (b : ℕ) : ∀ (fuel n : ℕ) (ds : List Char),
    '\r' ∉ ds → '\r' ∉ Nat.toDigitsCore b fuel n ds := by
  intro fuel
  induction fuel with
  | zero =>
    intro n ds h
    simpa [Nat.toDigitsCore] using h
  | succ f ih =>
    intro n ds h
    rw [Nat.toDigitsCore]
    have hd : '\r' ∉ (n % b).digitChar :: ds := by
      intro hmem
      rcases List.mem_cons.mp hmem with h1 | h2
      · exact digitChar_ne_cr (n % b) h1.symm
      · exact h h2
    split
    · exact hd
    · exact ih (n / b) ((n % b).digitChar :: ds) hd

/-- The decimal representation of a natural number contains no carriage
return. -/
lemma natRepr_no_cr (n : ℕ) : '\r' ∉ (toString n).data := by
  show '\r' ∉ ((Nat.toDigits 10 n).asString).data
  show '\r' ∉ Nat.toDigits 10 n
  exact toDigitsCore_no_cr 10 (n + 1) n [] (by simp)

/-- C1: the claim says `main_loop` never raises for any failure, including
one in `accept` itself.  The code contradicts this intent: when `accept`
raises, the except block on line 125 runs `client.close()` with the local
`client` unbound, so `UnboundLocalError` escapes the handler, nothing is
logged and no connection is closed — the caller's loop then dies.  This
theorem evaluates the model at such a failing input. -/
theorem main_loop_accept_failure_raises :
    (main_loop defaultConfig envAcceptRaises).raised = some "UnboundLocalError" ∧
    (main_loop defaultConfig envAcceptRaises).clientClosed = false ∧
    (main_loop defaultConfig envAcceptRaises).errorLogged = none :=
  ⟨rfl, rfl, rfl⟩

/-- C2 counterexample: for the plant name `Café` the emitted Content-Length
value (`len(result)` on the string, a code-point count) differs from the
UTF-8 byte length of the body, so the claim as stated is false. -/
theorem content_length_not_utf8_bytes :
    content_length_sent cafeConfig 20000 ≠ (build_result cafeConfig 20000).utf8ByteSize := by
  decide

/-- C2 (amended): the emitted Content-Length is the code-point count of the
body; it equals the UTF-8 byte length exactly when every character of the
serialised body is ASCII (UTF-8 size 1), as with the configured plant
name — not for arbitrary non-ASCII plant names. -/
theorem content_length_eq_bytes_of_ascii (cfg : Config) (raw : ℕ)
    (h : ∀ c ∈ (build_result cfg raw).data, c.utf8Size = 1) :
    content_length_sent cfg raw = (build_result cfg raw).utf8ByteSize :=
  (utf8ByteSize_eq_length _ h).symm

/-- Witness for C2 (amended) at the scenario configuration. -/
theorem content_length_eq_bytes_of_ascii_witness :
    (∀ c ∈ (build_result testConfig 20000).data, c.utf8Size = 1) ∧
    content_length_sent testConfig 20000 = (build_result testConfig 20000).utf8ByteSize :=
  ⟨by decide, content_length_eq_bytes_of_ascii testConfig 20000 (by decide)⟩

/-- C3: if every `wlan.status()` poll stays in the connecting class
(`0 ≤ s < 3`), `connect_to_wifi` completes exactly
`MAX_WIFI_CONNECTION_ATTEMPTS` wait iterations — not more, not fewer — and
then fails with the fatal `RuntimeError`. -/
theorem connect_to_wifi_exhausts_attempts (status : ℕ → ℤ) (ip : String)
    (h : ∀ k, 0 ≤ status k ∧ status k < 3) :
    (connect_to_wifi status ip MAX_WIFI_CONNECTION_ATTEMPTS).result
        = Except.error "Network connection failed!" ∧
    (connect_to_wifi status ip MAX_WIFI_CONNECTION_ATTEMPTS).pollAttempts
        = MAX_WIFI_CONNECTION_ATTEMPTS := by
  have hw := wifiWait_connecting status h MAX_WIFI_CONNECTION_ATTEMPTS 0 0
  have h60 := h ((wifiWait status MAX_WIFI_CONNECTION_ATTEMPTS 0 0).1)
  rw [connect_to_wifi_def]
  rw [if_pos (by omega : status (wifiWait status MAX_WIFI_CONNECTION_ATTEMPTS 0 0).1 ≠ 3)]
  refine ⟨rfl, ?_⟩
  show (wifiWait status MAX_WIFI_CONNECTION_ATTEMPTS 0 0).2 = MAX_WIFI_CONNECTION_ATTEMPTS
  rw [hw]
  exact Nat.zero_add _

/-- Witness for C3: a stream stuck at status 1. -/
theorem connect_to_wifi_exhausts_attempts_witness :
    (connect_to_wifi (fun _ => 1) "192.168.1.42" MAX_WIFI_CONNECTION_ATTEMPTS).result
        = Except.error "Network connection failed!" ∧
    (connect_to_wifi (fun _ => 1) "192.168.1.42" MAX_WIFI_CONNECTION_ATTEMPTS).pollAttempts
        = MAX_WIFI_CONNECTION_ATTEMPTS :=
  connect_to_wifi_exhausts_attempts (fun _ => 1) "192.168.1.42"
    (fun _ => ⟨by norm_num, by norm_num⟩)

/-- C4: `connect_to_wifi` returns the assigned address exactly when the
fresh status check after the loop (line 61) reads the joined class, 3; in
every other case — retries exhausted while connecting, or a failure
status — it raises the fatal `RuntimeError`. -/
theorem connect_to_wifi_ok_iff_joined (status : ℕ → ℤ) (ip : String) (n : ℕ) :
    ((connect_to_wifi status ip n).result = Except.ok ip ↔
      status (connect_to_wifi status ip n).finalStatusIndex = 3) ∧
    (status (connect_to_wifi status ip n).finalStatusIndex ≠ 3 →
      (connect_to_wifi status ip n).result = Except.error "Network connection failed!") := by
  rw [connect_to_wifi_def]
  by_cases hs : status (wifiWait status n 0 0).1 ≠ 3
  · rw [if_pos hs]
    exact ⟨⟨fun habs => Except.noConfusion habs, fun h3 => absurd h3 hs⟩, fun _ => rfl⟩
  · rw [if_neg hs]
    push_neg at hs
    exact ⟨⟨fun _ => hs, fun _ => rfl⟩, fun hne => absurd hs hne⟩

/-- Witness for C4: a stream stuck at 0 with a zero retry budget fails. -/
theorem connect_to_wifi_ok_iff_joined_witness :
    (connect_to_wifi (fun _ => 0) "10.0.0.9" 0).result
        = Except.error "Network connection failed!" :=
  (connect_to_wifi_ok_iff_joined (fun _ => 0) "10.0.0.9" 0).2 (by decide)

/-- C5: with threshold 60.0 and plant `Test Plant`, raw 20000 gives percent
30.5, not too dry, and exactly the specified body; raw 50000 gives percent
76.3, too dry, and a body reporting `"is_plant_too_dry": true`. -/
theorem end_to_end_scenarios :
    (get_soil_data 20000 MAX_DRYNESS_PERCENTAGE).1 = 30.5 ∧
    (get_soil_data 20000 MAX_DRYNESS_PERCENTAGE).2 = false ∧
    build_result testConfig 20000 =
      "\x7b\"plant\": \"Test Plant\", \"dryness_percent\": 30.5, \"max_allowable_dryness\": 60.0, \"is_plant_too_dry\": false\x7d" ∧
    (get_soil_data 50000 MAX_DRYNESS_PERCENTAGE).1 = 76.3 ∧
    (get_soil_data 50000 MAX_DRYNESS_PERCENTAGE).2 = true ∧
    build_result testConfig 50000 =
      "\x7b\"plant\": \"Test Plant\", \"dryness_percent\": 76.3, \"max_allowable_dryness\": 60.0, \"is_plant_too_dry\": true\x7d" := by
  refine ⟨?_, by decide, by decide, ?_, by decide, by decide⟩
  · have h : (get_soil_data 20000 MAX_DRYNESS_PERCENTAGE).1 = Rat.divInt 305 10 := by decide
    rw [h, Rat.divInt_eq_div]
    norm_num
  · have h : (get_soil_data 50000 MAX_DRYNESS_PERCENTAGE).1 = Rat.divInt 763 10 := by decide
    rw [h, Rat.divInt_eq_div]
    norm_num

/-- C6: for raw readings within the 16-bit domain the computed percentage
lies in [0, 100]; the flag is exactly the strict comparison with the
threshold (and the pair is a function of raw and threshold alone); raw 0
gives 0.0 and not-too-dry for any positive threshold, raw 65535 gives
100.0 and too-dry for any threshold below 100. -/
theorem get_soil_data_percent_bounds (raw : ℕ) (threshold : ℚ) (h : raw ≤ 65535) :
    0 ≤ (get_soil_data raw threshold).1 ∧ (get_soil_data raw threshold).1 ≤ 100 ∧
    (get_soil_data raw threshold).2 = decide ((get_soil_data raw threshold).1 > threshold) ∧
    (raw = 0 → (get_soil_data raw threshold).1 = 0 ∧
      (0 < threshold → (get_soil_data raw threshold).2 = false)) ∧
    (raw = 65535 → (get_soil_data raw threshold).1 = 100 ∧
      (threshold < 100 → (get_soil_data raw threshold).2 = true)) := by
  refine ⟨?_, ?_, rfl, ?_, ?_⟩
  · exact divInt10_nonneg _ (round1_nonneg _ (by positivity))
  · refine divInt10_le_100 _ (round1_le _ ?_)
    have h' : ((raw : ℤ)) ≤ 65535 := by exact_mod_cast h
    linarith
  · rintro rfl
    have h1 : (get_soil_data 0 threshold).1 = 0 := by
      have he : (get_soil_data 0 threshold).1 = (get_soil_data 0 0).1 := rfl
      rw [he]
      decide
    refine ⟨h1, fun hth => ?_⟩
    have h2 : (get_soil_data 0 threshold).2
        = decide (threshold < (get_soil_data 0 threshold).1) := rfl
    rw [h2, h1]
    exact decide_eq_false (lt_asymm hth)
  · rintro rfl
    have h1 : (get_soil_data 65535 threshold).1 = 100 := by
      have he : (get_soil_data 65535 threshold).1 = (get_soil_data 65535 0).1 := rfl
      rw [he]
      decide
    refine ⟨h1, fun hth => ?_⟩
    have h2 : (get_soil_data 65535 threshold).2
        = decide (threshold < (get_soil_data 65535 threshold).1) := rfl
    rw [h2, h1]
    exact decide_eq_true hth

/-- Witness for C6 at the upper boundary with threshold 60. -/
theorem get_soil_data_percent_bounds_witness :
    (65535 : ℕ) ≤ 65535 ∧ (get_soil_data 65535 60).1 = 100 ∧
    (get_soil_data 65535 60).2 = true := by
  have H := get_soil_data_percent_bounds 65535 60 (by decide)
  have hb := H.2.2.2.2 rfl
  exact ⟨by decide, hb.1, hb.2 (by decide)⟩

/-- C7: the dryness comparison is strictly greater-than: with threshold
60.0, any raw reading whose computed percent is exactly 60.0 is reported
as not too dry. -/
theorem too_dry_strict_greater (raw : ℕ)
    (h : (get_soil_data raw MAX_DRYNESS_PERCENTAGE).1 = MAX_DRYNESS_PERCENTAGE) :
    (get_soil_data raw MAX_DRYNESS_PERCENTAGE).2 = false := by
  have h2 : (get_soil_data raw MAX_DRYNESS_PERCENTAGE).2
      = decide (MAX_DRYNESS_PERCENTAGE < (get_soil_data raw MAX_DRYNESS_PERCENTAGE).1) := rfl
  rw [h2, h]
  exact decide_eq_false (lt_irrefl _)

/-- Witness for C7: raw 39321 yields exactly 60.0 percent. -/
theorem too_dry_strict_greater_witness :
    (get_soil_data 39321 MAX_DRYNESS_PERCENTAGE).1 = MAX_DRYNESS_PERCENTAGE ∧
    (get_soil_data 39321 MAX_DRYNESS_PERCENTAGE).2 = false :=
  ⟨by decide, too_dry_strict_greater 39321 (by decide)⟩

/-- C8: the response is exactly the five lines — status line,
Content-Length header, Content-Type header, blank line, body — each
terminated by one bare line feed (the body's terminator is the trailing
newline), and it contains no carriage return when the body has none. -/
theorem response_framing_lf (result : String) :
    build_response result = linesLF (http_lines result) ∧
    ('\r' ∉ result.data → '\r' ∉ (build_response result).data) := by
  constructor
  · refine String.ext ?_
    simp only [build_response, linesLF, http_lines, List.foldr_cons, List.foldr_nil,
      String.data_append, List.append_assoc]
    rfl
  · intro h hmem
    simp only [build_response, String.data_append, List.append_assoc, List.mem_append] at hmem
    rcases hmem with h1 | h2 | h3 | h4 | h5 | h6 | h7
    · exact absurd h1 (by decide)
    · exact absurd h2 (by decide)
    · exact natRepr_no_cr result.length h3
    · exact absurd h4 (by decide)
    · exact absurd h5 (by decide)
    · exact h h6
    · exact absurd h7 (by decide)

/-- Witness for C8 at a concrete carriage-return-free body. -/
theorem response_framing_lf_witness :
    build_response "abc" = linesLF (http_lines "abc") ∧
    '\r' ∉ (build_response "abc").data :=
  ⟨(response_framing_lf "abc").1, (response_framing_lf "abc").2 (by decide)⟩

/-- C9: the handler never inspects the request bytes: two environments that
differ only in the request content produce identical observable outcomes,
in particular byte-for-byte identical responses. -/
theorem response_independent_of_request (cfg : Config) (env : HandlerEnv) (r₁ r₂ : String) :
    main_loop cfg (setRequest env r₁) = main_loop cfg (setRequest env r₂) := rfl

/-- C10: once `accept` has bound the client, any later failure — logging,
sensor read, serialisation, send, the sent-log, or the post-send pause —
reaches the except block, which closes the client, logs the error and
returns normally. -/
theorem main_loop_cleanup_after_accept (cfg : Config) (env : HandlerEnv) (ip : String)
    (hacc : env.accept = Except.ok ip)
    (hfail : env.logReceived ≠ none ∨ (∃ e, env.rawReading = Except.error e) ∨
      env.dumps ≠ none ∨ env.send ≠ none ∨ env.logSent ≠ none ∨ env.pause ≠ none) :
    (main_loop cfg env).raised = none ∧ (main_loop cfg env).clientClosed = true ∧
    (main_loop cfg env).errorLogged ≠ none := by
  rcases hlr : env.logReceived with _ | e₁ <;>
    rcases hrr : env.rawReading with e₂ | raw <;>
    rcases hd : env.dumps with _ | e₃ <;>
    rcases hsnd : env.send with _ | e₄ <;>
    rcases hls : env.logSent with _ | e₅ <;>
    rcases hp : env.pause with _ | e₆ <;>
    simp [main_loop, closeAndLog, hacc, hlr, hrr, hd, hsnd, hls, hp] at hfail ⊢

/-- Witness for C10: accept succeeds and the send raises. -/
theorem main_loop_cleanup_after_accept_witness :
    (main_loop defaultConfig envSendRaises).raised = none ∧
    (main_loop defaultConfig envSendRaises).clientClosed = true ∧
    (main_loop defaultConfig envSendRaises).errorLogged ≠ none :=
  main_loop_cleanup_after_accept defaultConfig envSendRaises "10.0.0.5" rfl
    (Or.inr (Or.inr (Or.inr (Or.inl (by decide)))))
